import Mathlib

/-!
# rssi-pinger: the capture callback and the broadcast task

A shallow embedding of `main/rssi_pinger_main.c`.

* `promiscuous_rx_cb` is embedded over a captured payload given as a list of
  octets.  Every load of a payload octet is bounds-checked by the embedding: a
  load at an offset at or beyond the end of the payload stops the run with
  `Fault.out_of_bounds`, and every successful load is recorded in
  `Machine.reads`.  Text written by `printf` is appended to `Machine.stdout`.
* `example_espnow_task` is embedded as one loop iteration per tick; the value
  returned by `esp_now_send` on each tick is supplied from outside.

Layout conventions (the target is a little-endian 32-bit core, GCC bit-field
layout): a 16-bit bit-field occupies two octets, least significant first, and
the members of a struct follow one another without padding.
-/

namespace RssiPinger

/-! ## Data model -/

/-- One octet of a captured frame (`uint8_t`). -/
abbrev Byte := Fin 256

/-- Modelled from the spec: the capture-type enumeration comes from the radio
driver's headers, which are not part of the sources; the spec gives it as
`frame_type: enum{Management, Control, Data, Other}`. -/
inductive wifi_promiscuous_pkt_type_t where
  | WIFI_PKT_MGMT
  | WIFI_PKT_CTRL
  | WIFI_PKT_DATA
  | WIFI_PKT_MISC
  deriving DecidableEq, Repr

open wifi_promiscuous_pkt_type_t

/-- Modelled from the spec: the captured packet handed to the callback, as far
as the callback uses it: `rx_ctrl.rssi` (the signal strength of the capture
metadata) and the raw `payload` octets. -/
structure wifi_promiscuous_pkt_t where
  rssi : Int
  payload : List Byte
  deriving DecidableEq, Repr

/-- Members of `wifi_ieee80211_mac_hdr_t` in declaration order, with their
sizes in octets (`unsigned x:16` is 2, `unsigned x:32` is 4). -/
def wifi_ieee80211_mac_hdr_t : List (String × Nat) :=
  [("frame_ctrl", 2), ("duration_id", 2), ("addr1", 6), ("addr2", 6), ("addr3", 6),
   ("sequence_ctrl", 2), ("category_code", 1), ("organization_identifier", 3),
   ("random_values", 4)]

/-- Members of `esp_now_hdr_t` in declaration order, with their sizes in
octets; the trailing `payload[0]` has size zero. -/
def esp_now_hdr_t : List (String × Nat) :=
  [("element_id", 1), ("len", 1), ("organization_identifier", 3), ("type", 1),
   ("version", 1), ("payload", 0)]

/-- Size of a struct: the sum of the sizes of its members. -/
def sizeof (fields : List (String × Nat)) : Nat :=
  (fields.map Prod.snd).sum

/-- Offset of a member inside a struct: the sizes of the members before it. -/
def offsetof : List (String × Nat) → String → Nat
  | [], _ => 0
  | (n, sz) :: rest, name => if n = name then 0 else sz + offsetof rest name

/-- Offset of `ipkt->hdr.<member>` in the payload: `ipkt` is the payload itself. -/
def hdr_off (member : String) : Nat :=
  offsetof wifi_ieee80211_mac_hdr_t member

/-- Offset of `esp_now_hdr-><member>` in the payload: `esp_now_hdr` is
`ipkt->payload`, which starts right after the MAC header. -/
def esp_now_off (member : String) : Nat :=
  sizeof wifi_ieee80211_mac_hdr_t + offsetof esp_now_hdr_t member

/-! ## Machine state and the load/printf primitives -/

/-- What stops a run: a load outside the captured payload. -/
inductive Fault where
  | out_of_bounds (off : Nat)
  deriving DecidableEq, Repr

/-- Observable state: the payload offsets loaded so far, and the text written
to standard output so far. -/
structure Machine where
  reads : List Nat
  stdout : List Char
  deriving DecidableEq, Repr

/-- A computation on the machine state that may fault. -/
def Exec (α : Type) : Type :=
  Machine → Except Fault (α × Machine)

/-- Sequencing: a fault in the first computation ends the run. -/
def Exec.bind {α β : Type} (x : Exec α) (f : α → Exec β) : Exec β :=
  fun m =>
    match x m with
    | .ok (a, m1) => f a m1
    | .error e => .error e

/-- A computation that returns a value and leaves the state alone. -/
def Exec.pure {α : Type} (a : α) : Exec α :=
  fun m => .ok (a, m)

instance : Monad Exec where
  pure := Exec.pure
  bind := Exec.bind

/-- Load of one octet of the payload at offset `off`. -/
def load_u8 (payload : List Byte) (off : Nat) : Exec Nat :=
  fun m =>
    match payload[off]? with
    | some b => .ok (b.val, { m with reads := m.reads ++ [off] })
    | none => .error (Fault.out_of_bounds off)

/-- Load of a 16-bit bit-field stored at offset `off`, least significant octet
first. -/
def load_u16 (payload : List Byte) (off : Nat) : Exec Nat := do
  let lo ← load_u8 payload off
  let hi ← load_u8 payload (off + 1)
  pure ((lo + 256 * hi) % 2 ^ 16)

/-- Load of `n` consecutive octets starting at offset `off`. -/
def load_bytes (payload : List Byte) (off : Nat) : Nat → Exec (List Nat)
  | 0 => pure []
  | n + 1 => do
    let b ← load_u8 payload off
    let rest ← load_bytes payload (off + 1) n
    pure (b :: rest)

/-- Lexicographic comparison of two octet strings: the difference of the first
pair of octets that differ, zero when there is none. -/
def compare_bytes : List Nat → List Nat → Int
  | a :: as, b :: bs => if a = b then compare_bytes as bs else (a : Int) - (b : Int)
  | _, _ => 0

/-- The call `memcmp(payload + off, s2, n)`: the `n` octets of the payload are
loaded and compared with the first `n` octets of `s2`. -/
def memcmp (payload : List Byte) (off : Nat) (s2 : List Nat) (n : Nat) : Exec Int := do
  let s1 ← load_bytes payload off n
  pure (compare_bytes s1 (s2.take n))

/-- Conversion `%x` with a minimum field width `w` and the `0` flag: lowercase
hexadecimal digits, padded on the left with zeros. -/
def fmt_0x (w : Nat) (n : Nat) : List Char :=
  let ds := Nat.toDigits 16 n
  List.replicate (w - ds.length) '0' ++ ds

/-- Conversion `%i`: signed decimal. -/
def fmt_i : Int → List Char
  | Int.ofNat n => Nat.toDigits 10 n
  | Int.negSucc n => '-' :: Nat.toDigits 10 (n + 1)

/-- Text produced by a format string, for the conversions the program uses:
`%02x` (argument converted to a 32-bit `unsigned int`), `%i`, and ordinary
characters. -/
def vformat : List Char → List Int → List Char
  | '%' :: '0' :: '2' :: 'x' :: rest, a :: args =>
      fmt_0x 2 (a % 2 ^ 32).toNat ++ vformat rest args
  | '%' :: 'i' :: rest, a :: args => fmt_i a ++ vformat rest args
  | c :: rest, args => c :: vformat rest args
  | [], _ => []

/-- The call `printf(fmt, args...)`: the formatted text goes to standard output. -/
def printf (fmt : String) (args : List Int) : Exec Unit :=
  fun m => .ok ((), { m with stdout := m.stdout ++ vformat fmt.data args })

/-! ## The capture callback -/

/-- Constant `static const uint8_t ACTION_SUBTYPE = 0xd0;` -/
def ACTION_SUBTYPE : Nat := 0xd0

/-- Constant `static const uint8_t ESPRESSIF_OUI[] = {0x18, 0xfe, 0x34};` -/
def ESPRESSIF_OUI : List Nat := [0x18, 0xfe, 0x34]

/-- Constant `static const uint8_t ESP_NOW_TYPE = 0x04;` -/
def ESP_NOW_TYPE : Nat := 0x04

/-- The callback `promiscuous_rx_cb(buf, type)`, with `ppkt` the packet `buf`
points to.  The three pointer initialisations load nothing.  The operands of
`&&` are evaluated left to right, each only when the ones before it hold. -/
def promiscuous_rx_cb (ppkt : wifi_promiscuous_pkt_t) (type : wifi_promiscuous_pkt_type_t) :
    Exec Unit :=
  if type ≠ WIFI_PKT_MGMT then
    pure ()
  else do
    let frame_ctrl ← load_u16 ppkt.payload (hdr_off "frame_ctrl")
    if ACTION_SUBTYPE = frame_ctrl &&& 0xFF then
      let cmp ← memcmp ppkt.payload (hdr_off "organization_identifier") ESPRESSIF_OUI 3
      if cmp = 0 then
        let ty ← load_u8 ppkt.payload (esp_now_off "type")
        if ty = ESP_NOW_TYPE then
          let rssi : Int := ppkt.rssi
          let addr2 ← load_bytes ppkt.payload (hdr_off "addr2") 6
          printf "%02x:%02x:%02x:%02x:%02x:%02x %i\n" (addr2.map Int.ofNat ++ [rssi])
        else pure ()
      else pure ()
    else pure ()

/-- The text the `printf` call of the callback writes for a peer address and a
signal strength. -/
def report (peer_address : List Byte) (signal_strength : Int) : List Char :=
  vformat "%02x:%02x:%02x:%02x:%02x:%02x %i\n".data
    (peer_address.map (fun b => Int.ofNat b.val) ++ [signal_strength])

/-- What a run started in state `m` wrote to standard output: `none` when the
run faulted, `some []` when it completed without writing (the frame was
rejected), `some text` when it completed and wrote `text`. -/
def emitted (m : Machine) : Except Fault (Unit × Machine) → Option (List Char)
  | .ok (_, m1) => some (m1.stdout.drop m.stdout.length)
  | .error _ => none

/-- The payload offsets a run started in state `m` loaded, `none` when the run
faulted. -/
def loaded (m : Machine) : Except Fault (Unit × Machine) → Option (List Nat)
  | .ok (_, m1) => some (m1.reads.drop m.reads.length)
  | .error _ => none

/-- The state a run on a payload of at least 39 octets ends in: the offsets
loaded and the text written, by the tests the payload passes. -/
def final_state (p : List Byte) (rssi : Int) (type : wifi_promiscuous_pkt_type_t)
    (m : Machine) : Machine :=
  if type = WIFI_PKT_MGMT then
    if p[0]? = some 0xd0 then
      if p[25]? = some 0x18 ∧ p[26]? = some 0xfe ∧ p[27]? = some 0x34 then
        if p[37]? = some 0x04 then
          ⟨m.reads ++ [0, 1, 25, 26, 27, 37, 10, 11, 12, 13, 14, 15],
            m.stdout ++ report ((p.drop 10).take 6) rssi⟩
        else ⟨m.reads ++ [0, 1, 25, 26, 27, 37], m.stdout⟩
      else ⟨m.reads ++ [0, 1, 25, 26, 27], m.stdout⟩
    else ⟨m.reads ++ [0, 1], m.stdout⟩
  else m

/-! ## The report text in the words of the specification -/

/-- One lowercase hexadecimal digit. -/
def hex_digit (n : Nat) : Char :=
  "0123456789abcdef".data.getD n '?'

/-- An octet as exactly two lowercase hexadecimal digits, zero-padded. -/
def octet_text (b : Byte) : List Char :=
  [hex_digit (b.val / 16), hex_digit (b.val % 16)]

/-- The octets of an address in order, separated by single colons. -/
def address_text (a : List Byte) : List Char :=
  List.intercalate [':'] (a.map octet_text)

/-- A signed integer in decimal: a minus sign when negative, then the decimal
digits of the magnitude. -/
def signed_decimal (v : Int) : List Char :=
  (if v < 0 then ['-'] else []) ++ Nat.toDigits 10 v.natAbs

/-- Value of a decimal digit character. -/
def digit_value (c : Char) : Nat :=
  c.toNat - '0'.toNat

/-- Value of a string of decimal digits, most significant first. -/
def decimal_value (cs : List Char) : Nat :=
  cs.foldl (fun acc c => 10 * acc + digit_value c) 0

/-- Value of a signed decimal numeral: an optional minus sign, then digits. -/
def signed_value : List Char → Int
  | '-' :: cs => - (decimal_value cs : Int)
  | cs => (decimal_value cs : Int)

/-- The report as the specification words it: the address, one space, the
signal strength in signed decimal. -/
def report_text (a : List Byte) (rssi : Int) : List Char :=
  address_text a ++ [' '] ++ signed_decimal rssi

/-! ## The broadcast task -/

/-- Modelled from the spec: `ESP_NOW_ETH_ALEN` is defined in a header that is
not part of the sources; the spec gives every link address as 6 bytes, and
both address arrays of the source are initialised with six octets. -/
def ESP_NOW_ETH_ALEN : Nat := 6

/-- Array `static uint8_t broadcast_mac[ESP_NOW_ETH_ALEN]` with its initialiser. -/
def broadcast_mac : List Byte := [0xFF, 0xFF, 0xFF, 0xFF, 0xFF, 0xFF]

/-- Array `static uint8_t device_mac[ESP_NOW_ETH_ALEN]` with its initialiser. -/
def device_mac : List Byte := [0x01, 0x23, 0x45, 0x67, 0x89, 0xAB]

/-- Modelled from the spec: the status type of the send operation is declared
outside the sources; the spec gives the send operation a result that is
either success or a send error.  A status is an integer here. -/
abbrev esp_err_t := Int

/-- Modelled from the spec: the success status of the send operation; any
other status is a send error. -/
def ESP_OK : esp_err_t := 0

/-- One call `esp_now_send(peer_addr, data, len)`: the destination address, and
the `len` octets found at `data`. -/
structure esp_now_send_call where
  peer_addr : List Byte
  data : List Byte
  len : Nat
  deriving DecidableEq, Repr

/-- One line handed to the logger: level, tag, message. -/
structure log_line where
  level : Char
  tag : String
  message : String
  deriving DecidableEq, Repr

/-- The log tag `static const char *TAG = "espnow_example";` -/
def TAG : String := "espnow_example"

/-- Observable state of the task: the wake time kept for `vTaskDelayUntil`
(a 32-bit tick count), the send calls made so far, and the lines logged so far. -/
structure Task where
  xLastWakeTime : Nat
  sent : List esp_now_send_call
  log : List log_line
  deriving DecidableEq, Repr

/-- The period `10/portTICK_PERIOD_MS`, in ticks. -/
def xFrequency (portTICK_PERIOD_MS : Nat) : Nat :=
  10 / portTICK_PERIOD_MS

/-- The task before its loop: "starting sending" is logged and the wake time
is set to the current tick count. -/
def task_start (tick_count : Nat) : Task :=
  { xLastWakeTime := tick_count % 2 ^ 32
    sent := []
    log := [⟨'I', TAG, "starting sending"⟩] }

/-- One iteration of the `while(1)` body: wait for the next period, call
`esp_now_send(broadcast_mac, device_mac, ESP_NOW_ETH_ALEN)`, whose status is
`ret`, and log an error when the status is not `ESP_OK`. -/
def task_iteration (portTICK_PERIOD_MS : Nat) (ret : esp_err_t) (s : Task) : Task :=
  let s1 : Task :=
    { s with xLastWakeTime := (s.xLastWakeTime + xFrequency portTICK_PERIOD_MS) % 2 ^ 32 }
  let s2 : Task :=
    { s1 with sent := s1.sent ++
        [⟨broadcast_mac, device_mac.take ESP_NOW_ETH_ALEN, ESP_NOW_ETH_ALEN⟩] }
  if ret ≠ ESP_OK then
    { s2 with log := s2.log ++ [⟨'E', TAG, "Send error"⟩] }
  else
    s2

/-- The task `example_espnow_task` run for as many periods as there are send
statuses in `rets`, the status of the send of each period in order.  The loop
has no exit: every further status runs one more iteration. -/
def example_espnow_task (portTICK_PERIOD_MS tick_count : Nat) (rets : List esp_err_t) : Task :=
  rets.foldl (fun s ret => task_iteration portTICK_PERIOD_MS ret s) (task_start tick_count)

/-- The 48-octet sample payload of the source's frame decomposition. -/
def sample_payload : List Byte :=
  [0xd0, 0x00, 0x00, 0x00, 0xff, 0xff, 0xff, 0xff, 0xff, 0xff, 0x7c, 0xdf,
   0xa1, 0x01, 0xf3, 0x14, 0xff, 0xff, 0xff, 0xff, 0xff, 0xff, 0xa0, 0x37,
   0x7f, 0x18, 0xfe, 0x34, 0xac, 0x2b, 0x9d, 0xd8, 0xdd, 0x0b, 0x18, 0xfe,
   0x34, 0x04, 0x01, 0x01, 0x23, 0x45, 0x67, 0x89, 0xab, 0x00, 0x00, 0x00]

/-- A vendor-specific action frame that ends right after its organization
identifier: 24 octets of MAC header, category 7f, identifier 18 fe 34, and a
4-octet checksum; 32 octets in all. -/
def short_vendor_frame : List Byte :=
  [0xd0, 0x00, 0x00, 0x00, 0xff, 0xff, 0xff, 0xff, 0xff, 0xff, 0x7c, 0xdf,
   0xa1, 0x01, 0xf3, 0x14, 0xff, 0xff, 0xff, 0xff, 0xff, 0xff, 0xa0, 0x37,
   0x7f, 0x18, 0xfe, 0x34, 0xac, 0x2b, 0x9d, 0xd8]

/-- An action frame of 26 octets: 24 octets of MAC header, a category octet
and an action octet. -/
def truncated_action_frame : List Byte :=
  [0xd0, 0x00, 0x00, 0x00, 0xff, 0xff, 0xff, 0xff, 0xff, 0xff, 0x7c, 0xdf,
   0xa1, 0x01, 0xf3, 0x14, 0xff, 0xff, 0xff, 0xff, 0xff, 0xff, 0xa0, 0x37,
   0x7f, 0x18]

/-- A second payload that agrees with `sample_payload` at offsets 0, 10..15,
25..27 and 37 and differs at offset 1, in addr1 and addr3, at offsets 24, 32,
33, 34..36 and 38, and in length. -/
def other_payload : List Byte :=
  [0xd0, 0x5a, 0x00, 0x00, 0x01, 0x02, 0x03, 0x04, 0x05, 0x06, 0x7c, 0xdf,
   0xa1, 0x01, 0xf3, 0x14, 0x11, 0x12, 0x13, 0x14, 0x15, 0x16, 0xa0, 0x37,
   0x00, 0x18, 0xfe, 0x34, 0xac, 0x2b, 0x9d, 0xd8, 0x00, 0x00, 0x00, 0x00,
   0x00, 0x04, 0x09]

/-- The send call the task makes on every tick. -/
def probe_call : esp_now_send_call :=
  ⟨[0xFF, 0xFF, 0xFF, 0xFF, 0xFF, 0xFF], [0x01, 0x23, 0x45, 0x67, 0x89, 0xAB], 6⟩

/-! # Theorems -/

/-! ## Layout facts -/

theorem hdr_off_frame_ctrl : hdr_off "frame_ctrl" = 0 := by decide

theorem hdr_off_addr2 : hdr_off "addr2" = 10 := by decide

theorem hdr_off_organization_identifier : hdr_off "organization_identifier" = 25 := by decide

theorem esp_now_off_type : esp_now_off "type" = 37 := by decide

theorem sizeof_headers :
    sizeof wifi_ieee80211_mac_hdr_t = 32 ∧ sizeof esp_now_hdr_t = 7 := by decide

/-! ## Evaluation of the callback -/

theorem low_byte (lo hi : Byte) : ((lo.val + 256 * hi.val) % 65536) &&& 255 = lo.val := by
  have h : (255 : Nat) = 2 ^ 8 - 1 := by norm_num
  rw [h, Nat.and_pow_two_sub_one_eq_mod]
  have := lo.isLt
  have := hi.isLt
  omega

theorem compare_oui (x y z : Nat) :
    compare_bytes [x, y, z] [0x18, 0xfe, 0x34] = 0 ↔ x = 0x18 ∧ y = 0xfe ∧ z = 0x34 := by
  simp only [compare_bytes]
  split_ifs <;> omega

theorem rx_cb_eval (p : List Byte) (rssi : Int) (m : Machine)
    (b0 b1 o0 o1 o2 t a0 a1 a2 a3 a4 a5 : Byte)
    (h0 : p[0]? = some b0) (h1 : p[1]? = some b1)
    (h25 : p[25]? = some o0) (h26 : p[26]? = some o1) (h27 : p[27]? = some o2)
    (h37 : p[37]? = some t)
    (h10 : p[10]? = some a0) (h11 : p[11]? = some a1) (h12 : p[12]? = some a2)
    (h13 : p[13]? = some a3) (h14 : p[14]? = some a4) (h15 : p[15]? = some a5) :
    promiscuous_rx_cb ⟨rssi, p⟩ WIFI_PKT_MGMT m =
      if b0.val = 0xd0 then
        if o0.val = 0x18 ∧ o1.val = 0xfe ∧ o2.val = 0x34 then
          if t.val = 0x04 then
            .ok ((), ⟨m.reads ++ [0, 1, 25, 26, 27, 37, 10, 11, 12, 13, 14, 15],
              m.stdout ++ vformat "%02x:%02x:%02x:%02x:%02x:%02x %i\n".data
                [(a0.val : Int), a1.val, a2.val, a3.val, a4.val, a5.val, rssi]⟩)
          else .ok ((), ⟨m.reads ++ [0, 1, 25, 26, 27, 37], m.stdout⟩)
        else .ok ((), ⟨m.reads ++ [0, 1, 25, 26, 27], m.stdout⟩)
      else .ok ((), ⟨m.reads ++ [0, 1], m.stdout⟩) := by
  simp only [promiscuous_rx_cb, hdr_off_frame_ctrl, hdr_off_addr2,
    hdr_off_organization_identifier, esp_now_off_type]
  simp [load_u16, memcmp, load_bytes, bind, Exec.bind, pure, Exec.pure, load_u8, h0, h1]
  simp only [low_byte, ACTION_SUBTYPE, ESP_NOW_TYPE, ESPRESSIF_OUI]
  by_cases hb : b0.val = 0xd0
  · simp [hb, Exec.bind, Exec.pure, load_u8, h25, h26, h27]
    by_cases ho : o0.val = 0x18 ∧ o1.val = 0xfe ∧ o2.val = 0x34
    · have hc := (compare_oui o0.val o1.val o2.val).mpr ho
      rw [if_pos hc, if_pos ho]
      by_cases ht : t.val = 0x04
      · simp [ht, Exec.bind, Exec.pure, load_u8, h37, h10, h11, h12, h13, h14, h15, printf]
      · simp [ht, Exec.bind, Exec.pure, load_u8, h37]
    · have hc := mt (compare_oui o0.val o1.val o2.val).mp ho
      rw [if_neg hc, if_neg ho]
      simp [Exec.pure]
  · have hb2 : ¬ (208 = b0.val) := fun h => hb h.symm
    simp [hb, hb2, Exec.pure]

theorem exists_byte {p : List Byte} {i : Nat} (h : i < p.length) : ∃ b, p[i]? = some b :=
  ⟨p[i], List.getElem?_eq_getElem h⟩

theorem take_drop_six (p : List Byte) (k : Nat) (a0 a1 a2 a3 a4 a5 : Byte)
    (h0 : p[k]? = some a0) (h1 : p[k + 1]? = some a1) (h2 : p[k + 2]? = some a2)
    (h3 : p[k + 3]? = some a3) (h4 : p[k + 4]? = some a4) (h5 : p[k + 5]? = some a5) :
    (p.drop k).take 6 = [a0, a1, a2, a3, a4, a5] := by
  apply List.ext_getElem?
  intro i
  rw [List.getElem?_take]
  split_ifs with hi
  · rw [List.getElem?_drop]
    interval_cases i <;> simp [*]
  · have : 6 ≤ i := by omega
    simp [this]

theorem rx_cb_spec (p : List Byte) (rssi : Int) (type : wifi_promiscuous_pkt_type_t)
    (m : Machine) (hlen : 39 ≤ p.length) :
    promiscuous_rx_cb ⟨rssi, p⟩ type m = .ok ((), final_state p rssi type m) := by
  unfold final_state
  by_cases ht : type = WIFI_PKT_MGMT
  · subst ht
    obtain ⟨b0, h0⟩ := exists_byte (show 0 < p.length by omega)
    obtain ⟨b1, h1⟩ := exists_byte (show 1 < p.length by omega)
    obtain ⟨o0, h25⟩ := exists_byte (show 25 < p.length by omega)
    obtain ⟨o1, h26⟩ := exists_byte (show 26 < p.length by omega)
    obtain ⟨o2, h27⟩ := exists_byte (show 27 < p.length by omega)
    obtain ⟨t, h37⟩ := exists_byte (show 37 < p.length by omega)
    obtain ⟨a0, h10⟩ := exists_byte (show 10 < p.length by omega)
    obtain ⟨a1, h11⟩ := exists_byte (show 11 < p.length by omega)
    obtain ⟨a2, h12⟩ := exists_byte (show 12 < p.length by omega)
    obtain ⟨a3, h13⟩ := exists_byte (show 13 < p.length by omega)
    obtain ⟨a4, h14⟩ := exists_byte (show 14 < p.length by omega)
    obtain ⟨a5, h15⟩ := exists_byte (show 15 < p.length by omega)
    rw [rx_cb_eval p rssi m b0 b1 o0 o1 o2 t a0 a1 a2 a3 a4 a5 h0 h1 h25 h26 h27 h37
      h10 h11 h12 h13 h14 h15]
    rw [take_drop_six p 10 a0 a1 a2 a3 a4 a5 h10 h11 h12 h13 h14 h15]
    have e0 : (b0.val = 0xd0) ↔ (b0 = 0xd0) := by rw [Fin.ext_iff]; rfl
    have e25 : (o0.val = 0x18) ↔ (o0 = 0x18) := by rw [Fin.ext_iff]; rfl
    have e26 : (o1.val = 0xfe) ↔ (o1 = 0xfe) := by rw [Fin.ext_iff]; rfl
    have e27 : (o2.val = 0x34) ↔ (o2 = 0x34) := by rw [Fin.ext_iff]; rfl
    have e37 : (t.val = 0x04) ↔ (t = 0x04) := by rw [Fin.ext_iff]; rfl
    simp only [h0, h25, h26, h27, h37, Option.some.injEq, if_true, e0, e25, e26, e27, e37]
    split_ifs <;> simp [report]
  · simp [promiscuous_rx_cb, ht, pure, Exec.pure]

theorem emitted_same (m : Machine) (reads : List Nat) :
    emitted m (.ok ((), ⟨reads, m.stdout⟩)) = some [] := by
  simp [emitted]

theorem emitted_append (m : Machine) (reads : List Nat) (text : List Char) :
    emitted m (.ok ((), ⟨reads, m.stdout ++ text⟩)) = some text := by
  simp [emitted]

theorem rejected_of_not (p : List Byte) (rssi : Int) (type : wifi_promiscuous_pkt_type_t)
    (m : Machine) (hlen : 39 ≤ p.length)
    (hnot : ¬ (type = WIFI_PKT_MGMT ∧ p[0]? = some 0xd0 ∧
      (p[25]? = some 0x18 ∧ p[26]? = some 0xfe ∧ p[27]? = some 0x34) ∧ p[37]? = some 0x04)) :
    emitted m (promiscuous_rx_cb ⟨rssi, p⟩ type m) = some [] := by
  rw [rx_cb_spec p rssi type m hlen]
  unfold final_state
  split_ifs with h1 h2 h3 h4
  · exact absurd ⟨h1, h2, h3, h4⟩ hnot
  all_goals simp [emitted]

/-! ## Claims about the capture callback -/

/-- C1 (acceptance criterion): for every capture type and every payload of at
least 39 octets, if the type is Management, octet 0 is d0, octets 25..27 are
18 fe 34 and octet 37 is 04, the callback completes having written exactly one
report, built from octets 10..15 of the payload as the peer address and from
the signal strength of the capture metadata; that report is not empty. -/
theorem acceptance_criterion (type : wifi_promiscuous_pkt_type_t) (p : List Byte)
    (rssi : Int) (m : Machine) (hlen : 39 ≤ p.length) (htype : type = WIFI_PKT_MGMT)
    (h0 : p[0]? = some 0xd0)
    (h25 : p[25]? = some 0x18) (h26 : p[26]? = some 0xfe) (h27 : p[27]? = some 0x34)
    (h37 : p[37]? = some 0x04) :
    promiscuous_rx_cb ⟨rssi, p⟩ type m =
        .ok ((), ⟨m.reads ++ [0, 1, 25, 26, 27, 37, 10, 11, 12, 13, 14, 15],
          m.stdout ++ report ((p.drop 10).take 6) rssi⟩) ∧
      ((p.drop 10).take 6).length = 6 ∧
      report ((p.drop 10).take 6) rssi ≠ [] := by
  subst htype
  have hrun := rx_cb_spec p rssi WIFI_PKT_MGMT m hlen
  simp only [final_state, h0, h25, h26, h27, h37, and_self, if_true] at hrun
  refine ⟨hrun, ?_, ?_⟩
  · simp; omega
  · obtain ⟨a0, h10⟩ := exists_byte (show 10 < p.length by omega)
    obtain ⟨a1, h11⟩ := exists_byte (show 11 < p.length by omega)
    obtain ⟨a2, h12⟩ := exists_byte (show 12 < p.length by omega)
    obtain ⟨a3, h13⟩ := exists_byte (show 13 < p.length by omega)
    obtain ⟨a4, h14⟩ := exists_byte (show 14 < p.length by omega)
    obtain ⟨a5, h15⟩ := exists_byte (show 15 < p.length by omega)
    rw [take_drop_six p 10 a0 a1 a2 a3 a4 a5 h10 h11 h12 h13 h14 h15]
    simp [report, vformat]

/-- Witness for C1: the sample payload of the source, Management, rssi -47. -/
theorem acceptance_criterion_witness :
    (39 ≤ sample_payload.length ∧ sample_payload[0]? = some 0xd0 ∧
      sample_payload[25]? = some 0x18 ∧ sample_payload[26]? = some 0xfe ∧
      sample_payload[27]? = some 0x34 ∧ sample_payload[37]? = some 0x04) ∧
    (promiscuous_rx_cb ⟨-47, sample_payload⟩ WIFI_PKT_MGMT ⟨[], []⟩ =
        .ok ((), ⟨[] ++ [0, 1, 25, 26, 27, 37, 10, 11, 12, 13, 14, 15],
          [] ++ report ((sample_payload.drop 10).take 6) (-47)⟩) ∧
      ((sample_payload.drop 10).take 6).length = 6 ∧
      report ((sample_payload.drop 10).take 6) (-47) ≠ []) :=
  ⟨by decide,
    acceptance_criterion WIFI_PKT_MGMT sample_payload (-47) ⟨[], []⟩ (by decide) rfl
      (by decide) (by decide) (by decide) (by decide) (by decide)⟩

/-- C2 (rejection criterion): on a payload of at least 39 octets the callback
writes something only if all four predicates hold; and changing the capture
type to a non-Management value, octet 0 to a value other than d0, octets
25..27 to a triple other than 18 fe 34, or octet 37 to a value other than 04,
everything else unchanged, makes the callback complete without writing. -/
theorem rejection_criterion (type : wifi_promiscuous_pkt_type_t) (p : List Byte)
    (rssi : Int) (m : Machine) (hlen : 39 ≤ p.length) :
    (emitted m (promiscuous_rx_cb ⟨rssi, p⟩ type m) ≠ some [] →
        type = WIFI_PKT_MGMT ∧ p[0]? = some 0xd0 ∧
          (p[25]? = some 0x18 ∧ p[26]? = some 0xfe ∧ p[27]? = some 0x34) ∧
          p[37]? = some 0x04) ∧
      (∀ type1 : wifi_promiscuous_pkt_type_t, type1 ≠ WIFI_PKT_MGMT →
        emitted m (promiscuous_rx_cb ⟨rssi, p⟩ type1 m) = some []) ∧
      (∀ v : Byte, v ≠ 0xd0 →
        emitted m (promiscuous_rx_cb ⟨rssi, p.set 0 v⟩ type m) = some []) ∧
      (∀ v0 v1 v2 : Byte, ¬ (v0 = 0x18 ∧ v1 = 0xfe ∧ v2 = 0x34) →
        emitted m (promiscuous_rx_cb ⟨rssi, ((p.set 25 v0).set 26 v1).set 27 v2⟩ type m) =
          some []) ∧
      (∀ v : Byte, v ≠ 0x04 →
        emitted m (promiscuous_rx_cb ⟨rssi, p.set 37 v⟩ type m) = some []) := by
  refine ⟨?_, ?_, ?_, ?_, ?_⟩
  · intro h
    by_contra hnot
    exact h (rejected_of_not p rssi type m hlen hnot)
  · intro type1 h1
    exact rejected_of_not p rssi type1 m hlen (fun h => h1 h.1)
  · intro v hv
    apply rejected_of_not _ rssi type m (by simpa using hlen)
    rintro ⟨-, h, -⟩
    have h0 : 0 < p.length := by omega
    simp [List.getElem?_set, h0] at h
    exact hv h
  · intro v0 v1 v2 hv
    apply rejected_of_not _ rssi type m (by simpa using hlen)
    rintro ⟨-, -, ⟨h25, h26, h27⟩, -⟩
    have l25 : 25 < p.length := by omega
    have l26 : 26 < p.length := by omega
    have l27 : 27 < p.length := by omega
    simp [List.getElem?_set, l25, l26, l27] at h25 h26 h27
    exact hv ⟨h25, h26, h27⟩
  · intro v hv
    apply rejected_of_not _ rssi type m (by simpa using hlen)
    rintro ⟨-, -, -, h⟩
    have h0 : 37 < p.length := by omega
    simp [List.getElem?_set, h0] at h
    exact hv h

/-- Witness for C2: the sample payload of the source, which the callback
accepts. -/
theorem rejection_criterion_witness :
    39 ≤ sample_payload.length ∧
    ((emitted ⟨[], []⟩ (promiscuous_rx_cb ⟨-47, sample_payload⟩ WIFI_PKT_MGMT ⟨[], []⟩) ≠
          some [] →
        WIFI_PKT_MGMT = WIFI_PKT_MGMT ∧ sample_payload[0]? = some 0xd0 ∧
          (sample_payload[25]? = some 0x18 ∧ sample_payload[26]? = some 0xfe ∧
            sample_payload[27]? = some 0x34) ∧
          sample_payload[37]? = some 0x04) ∧
      (∀ type1 : wifi_promiscuous_pkt_type_t, type1 ≠ WIFI_PKT_MGMT →
        emitted ⟨[], []⟩ (promiscuous_rx_cb ⟨-47, sample_payload⟩ type1 ⟨[], []⟩) = some []) ∧
      (∀ v : Byte, v ≠ 0xd0 →
        emitted ⟨[], []⟩
          (promiscuous_rx_cb ⟨-47, sample_payload.set 0 v⟩ WIFI_PKT_MGMT ⟨[], []⟩) = some []) ∧
      (∀ v0 v1 v2 : Byte, ¬ (v0 = 0x18 ∧ v1 = 0xfe ∧ v2 = 0x34) →
        emitted ⟨[], []⟩
          (promiscuous_rx_cb ⟨-47, ((sample_payload.set 25 v0).set 26 v1).set 27 v2⟩
            WIFI_PKT_MGMT ⟨[], []⟩) = some []) ∧
      (∀ v : Byte, v ≠ 0x04 →
        emitted ⟨[], []⟩
          (promiscuous_rx_cb ⟨-47, sample_payload.set 37 v⟩ WIFI_PKT_MGMT ⟨[], []⟩) =
            some [])) :=
  ⟨by decide, rejection_criterion WIFI_PKT_MGMT sample_payload (-47) ⟨[], []⟩ (by decide)⟩

/-- C3 (bounds safety) evaluated on a short frame: on the 32-octet vendor
action frame, captured as Management, the callback passes the subtype and
identifier tests and then loads offset 37, beyond the end of the payload; the
run does not complete as a rejection. -/
theorem short_frame_out_of_bounds :
    short_vendor_frame.length = 32 ∧
      promiscuous_rx_cb ⟨-47, short_vendor_frame⟩ WIFI_PKT_MGMT ⟨[], []⟩ =
        .error (Fault.out_of_bounds 37) ∧
      emitted ⟨[], []⟩ (promiscuous_rx_cb ⟨-47, short_vendor_frame⟩ WIFI_PKT_MGMT ⟨[], []⟩) ≠
        some [] := by
  refine ⟨rfl, rfl, ?_⟩
  decide

/-- C4 (worked example), against the claim as stated: the text written for
the sample payload, Management, rssi -47 is not the 21-character string
`7c:df:a1:01:f3:14 -47`. -/
theorem worked_example_text_differs :
    emitted ⟨[], []⟩ (promiscuous_rx_cb ⟨-47, sample_payload⟩ WIFI_PKT_MGMT ⟨[], []⟩) ≠
      some "7c:df:a1:01:f3:14 -47".data := by
  decide

/-- C4 (worked example) as amended: for the 48-octet sample payload,
Management, rssi -47, the callback completes having written one report, for
peer address 7c:df:a1:01:f3:14 and signal strength -47, and the text written
is `7c:df:a1:01:f3:14 -47` followed by a newline. -/
theorem worked_example :
    sample_payload.length = 48 ∧
      promiscuous_rx_cb ⟨-47, sample_payload⟩ WIFI_PKT_MGMT ⟨[], []⟩ =
        .ok ((), ⟨[0, 1, 25, 26, 27, 37, 10, 11, 12, 13, 14, 15],
          report [0x7c, 0xdf, 0xa1, 0x01, 0xf3, 0x14] (-47)⟩) ∧
      report [0x7c, 0xdf, 0xa1, 0x01, 0xf3, 0x14] (-47) = "7c:df:a1:01:f3:14 -47\n".data ∧
      emitted ⟨[], []⟩ (promiscuous_rx_cb ⟨-47, sample_payload⟩ WIFI_PKT_MGMT ⟨[], []⟩) =
        some ("7c:df:a1:01:f3:14 -47".data ++ ['\n']) := by
  refine ⟨rfl, rfl, rfl, rfl⟩

/-- C6 (totality) evaluated on a truncated frame: on the 26-octet action
frame, captured as Management, the callback loads offset 26, beyond the end of
the payload, while comparing the organization identifier; the run ends in
neither an accepted nor a rejected classification. -/
theorem truncated_frame_faults :
    truncated_action_frame.length = 26 ∧
      promiscuous_rx_cb ⟨-60, truncated_action_frame⟩ WIFI_PKT_MGMT ⟨[], []⟩ =
        .error (Fault.out_of_bounds 26) ∧
      emitted ⟨[], []⟩
        (promiscuous_rx_cb ⟨-60, truncated_action_frame⟩ WIFI_PKT_MGMT ⟨[], []⟩) = none := by
  refine ⟨rfl, rfl, rfl⟩

/-- C9: for every capture type other than Management, every payload of any
length and any rssi, the callback completes leaving the state as it was: it
writes nothing and loads no octet of the payload. -/
theorem non_management_rejected (ppkt : wifi_promiscuous_pkt_t)
    (type : wifi_promiscuous_pkt_type_t) (m : Machine) (h : type ≠ WIFI_PKT_MGMT) :
    promiscuous_rx_cb ppkt type m = .ok ((), m) ∧
      emitted m (promiscuous_rx_cb ppkt type m) = some [] ∧
      loaded m (promiscuous_rx_cb ppkt type m) = some [] := by
  have hrun : promiscuous_rx_cb ppkt type m = .ok ((), m) := by
    simp [promiscuous_rx_cb, h, pure, Exec.pure]
  rw [hrun]
  simp [emitted, loaded]

/-- Witness for C9: a Data capture with an empty payload. -/
theorem non_management_rejected_witness :
    WIFI_PKT_DATA ≠ WIFI_PKT_MGMT ∧
    (promiscuous_rx_cb ⟨-47, []⟩ WIFI_PKT_DATA ⟨[], []⟩ = .ok ((), ⟨[], []⟩) ∧
      emitted ⟨[], []⟩ (promiscuous_rx_cb ⟨-47, []⟩ WIFI_PKT_DATA ⟨[], []⟩) = some [] ∧
      loaded ⟨[], []⟩ (promiscuous_rx_cb ⟨-47, []⟩ WIFI_PKT_DATA ⟨[], []⟩) = some []) :=
  ⟨by decide, non_management_rejected ⟨-47, []⟩ WIFI_PKT_DATA ⟨[], []⟩ (by decide)⟩

/-- C10 (field independence): two payloads of at least 39 octets that agree at
offsets 0, 10..15, 25..27 and 37 give, for the same capture type, rssi and
starting state, the same run: the same completion, the same text written and
the same offsets loaded. -/
theorem field_independence (p q : List Byte) (type : wifi_promiscuous_pkt_type_t)
    (rssi : Int) (m : Machine) (hp : 39 ≤ p.length) (hq : 39 ≤ q.length)
    (h : ∀ i ∈ [0, 10, 11, 12, 13, 14, 15, 25, 26, 27, 37], p[i]? = q[i]?) :
    promiscuous_rx_cb ⟨rssi, p⟩ type m = promiscuous_rx_cb ⟨rssi, q⟩ type m := by
  rw [rx_cb_spec p rssi type m hp, rx_cb_spec q rssi type m hq]
  have e0 := h 0 (by simp)
  have e25 := h 25 (by simp)
  have e26 := h 26 (by simp)
  have e27 := h 27 (by simp)
  have e37 := h 37 (by simp)
  have eaddr : (p.drop 10).take 6 = (q.drop 10).take 6 := by
    obtain ⟨a0, h10⟩ := exists_byte (show 10 < p.length by omega)
    obtain ⟨a1, h11⟩ := exists_byte (show 11 < p.length by omega)
    obtain ⟨a2, h12⟩ := exists_byte (show 12 < p.length by omega)
    obtain ⟨a3, h13⟩ := exists_byte (show 13 < p.length by omega)
    obtain ⟨a4, h14⟩ := exists_byte (show 14 < p.length by omega)
    obtain ⟨a5, h15⟩ := exists_byte (show 15 < p.length by omega)
    rw [take_drop_six p 10 a0 a1 a2 a3 a4 a5 h10 h11 h12 h13 h14 h15]
    rw [take_drop_six q 10 a0 a1 a2 a3 a4 a5 (h 10 (by simp) ▸ h10) (h 11 (by simp) ▸ h11)
      (h 12 (by simp) ▸ h12) (h 13 (by simp) ▸ h13) (h 14 (by simp) ▸ h14)
      (h 15 (by simp) ▸ h15)]
  simp only [final_state, e0, e25, e26, e27, e37, eaddr]

/-- Witness for C10: the sample payload and a 39-octet payload that differs
from it at offset 1, in addr1 and addr3, at offsets 24, 32..36 and 38, and in
length. -/
theorem field_independence_witness :
    39 ≤ sample_payload.length ∧ 39 ≤ other_payload.length ∧
    (∀ i ∈ [0, 10, 11, 12, 13, 14, 15, 25, 26, 27, 37], sample_payload[i]? = other_payload[i]?) ∧
    sample_payload ≠ other_payload ∧
    promiscuous_rx_cb ⟨-47, sample_payload⟩ WIFI_PKT_MGMT ⟨[], []⟩ =
      promiscuous_rx_cb ⟨-47, other_payload⟩ WIFI_PKT_MGMT ⟨[], []⟩ :=
  ⟨by decide, by decide, by decide, by decide,
    field_independence sample_payload other_payload WIFI_PKT_MGMT (-47) ⟨[], []⟩
      (by decide) (by decide) (by decide)⟩

/-! ## The report text -/

set_option maxRecDepth 100000 in
theorem fmt_0x_octet (b : Byte) : fmt_0x 2 b.val = octet_text b := by
  revert b
  decide

theorem unsigned_of_octet (b : Byte) : (Int.ofNat b.val % 2 ^ 32).toNat = b.val := by
  have h := b.isLt
  have e : (Int.ofNat b.val % 2 ^ 32) = (b.val : Int) := by
    norm_num
    omega
  rw [e]
  rfl

theorem fmt_i_eq (v : Int) : fmt_i v = signed_decimal v := by
  cases v with
  | ofNat n => simp [fmt_i, signed_decimal]
  | negSucc n => simp [fmt_i, signed_decimal, Int.negSucc_lt_zero]

set_option maxRecDepth 100000 in
theorem octet_text_hex (b : Byte) : ∀ c ∈ octet_text b, c ∈ "0123456789abcdef".data := by
  revert b
  decide

theorem digit_value_digitChar (d : Nat) (h : d < 10) :
    digit_value (Nat.digitChar d) = d ∧ (Nat.digitChar d).isDigit = true := by
  interval_cases d <;> exact ⟨rfl, rfl⟩

theorem toDigitsCore_append (b : Nat) (fuel : Nat) : ∀ (n : Nat) (ds : List Char),
    Nat.toDigitsCore b fuel n ds = Nat.toDigitsCore b fuel n [] ++ ds := by
  induction fuel with
  | zero => intro n ds; simp [Nat.toDigitsCore]
  | succ f ih =>
    intro n ds
    simp only [Nat.toDigitsCore]
    split_ifs with h
    · simp
    · rw [ih (n / b) (Nat.digitChar (n % b) :: ds), ih (n / b) [Nat.digitChar (n % b)]]
      simp

theorem decimal_value_snoc (l : List Char) (c : Char) :
    decimal_value (l ++ [c]) = 10 * decimal_value l + digit_value c := by
  simp [decimal_value, List.foldl_append]

theorem decimal_value_core (fuel : Nat) : ∀ n : Nat, n < fuel →
    decimal_value (Nat.toDigitsCore 10 fuel n []) = n ∧
      ∀ c ∈ Nat.toDigitsCore 10 fuel n [], c.isDigit = true := by
  induction fuel with
  | zero => intro n h; omega
  | succ f ih =>
    intro n hn
    have hd := digit_value_digitChar (n % 10) (Nat.mod_lt _ (by norm_num))
    simp only [Nat.toDigitsCore]
    split_ifs with h
    · constructor
      · simp only [decimal_value, List.foldl_cons, List.foldl_nil, hd.1]
        omega
      · intro c hc
        simp at hc
        rw [hc]; exact hd.2
    · rw [toDigitsCore_append]
      have hlt : n / 10 < f := by omega
      obtain ⟨iv, ic⟩ := ih (n / 10) hlt
      constructor
      · rw [decimal_value_snoc, iv, hd.1]
        omega
      · intro c hc
        rw [List.mem_append] at hc
        rcases hc with hc | hc
        · exact ic c hc
        · simp at hc
          rw [hc]; exact hd.2

theorem decimal_value_toDigits (n : Nat) :
    decimal_value (Nat.toDigits 10 n) = n ∧ ∀ c ∈ Nat.toDigits 10 n, c.isDigit = true :=
  decimal_value_core (n + 1) n (Nat.lt_succ_self n)

theorem toDigits_head_ne_minus (n : Nat) : ∀ cs, Nat.toDigits 10 n ≠ '-' :: cs := by
  intro cs h
  have := (decimal_value_toDigits n).2 '-' (by rw [h]; simp)
  exact absurd this (by decide)

theorem signed_value_signed_decimal (v : Int) : signed_value (signed_decimal v) = v := by
  unfold signed_decimal
  split_ifs with h
  · simp only [List.singleton_append, signed_value, (decimal_value_toDigits _).1]
    omega
  · rw [List.nil_append]
    have hv : signed_value (Nat.toDigits 10 v.natAbs) =
        (decimal_value (Nat.toDigits 10 v.natAbs) : Int) := by
      unfold signed_value
      split
      · rename_i cs heq
        exact absurd heq (toDigits_head_ne_minus _ _)
      · rfl
    rw [hv, (decimal_value_toDigits _).1]
    omega

theorem report_eq (a0 a1 a2 a3 a4 a5 : Byte) (rssi : Int) :
    report [a0, a1, a2, a3, a4, a5] rssi =
      octet_text a0 ++ ':' :: (octet_text a1 ++ ':' :: (octet_text a2 ++ ':' ::
        (octet_text a3 ++ ':' :: (octet_text a4 ++ ':' :: (octet_text a5 ++ ' ' ::
          (signed_decimal rssi ++ ['\n'])))))) := by
  simp only [report, List.map, List.cons_append, List.nil_append, vformat, unsigned_of_octet,
    fmt_0x_octet, fmt_i_eq, List.append_nil]

/-- C5 (report format), against the claim as stated: the text written for the
accepted 39-octet payload `other_payload` with rssi 12 is not the address, a
space and the signal strength alone. -/
theorem report_format_text_differs :
    emitted ⟨[], []⟩ (promiscuous_rx_cb ⟨12, other_payload⟩ WIFI_PKT_MGMT ⟨[], []⟩) ≠
        some (report_text ((other_payload.drop 10).take 6) 12) ∧
      report_text ((other_payload.drop 10).take 6) 12 = "7c:df:a1:01:f3:14 12".data := by
  decide

/-- C5 (report format) as amended: for every 6-octet peer address and every
signed integer rssi, the text written for the sample is the six octets in
order, each as exactly two lowercase hexadecimal digits, separated by single
colons, then one space, then rssi in signed decimal (a numeral whose value is
rssi), then a newline; the address part has exactly 17 characters; and an
accepted frame with that address gets exactly this one report. -/
theorem report_format (a0 a1 a2 a3 a4 a5 : Byte) (rssi : Int) :
    report [a0, a1, a2, a3, a4, a5] rssi = report_text [a0, a1, a2, a3, a4, a5] rssi ++ ['\n'] ∧
      address_text [a0, a1, a2, a3, a4, a5] =
        octet_text a0 ++ ':' :: (octet_text a1 ++ ':' :: (octet_text a2 ++ ':' ::
          (octet_text a3 ++ ':' :: (octet_text a4 ++ ':' :: octet_text a5)))) ∧
      (address_text [a0, a1, a2, a3, a4, a5]).length = 17 ∧
      (∀ b : Byte, (octet_text b).length = 2 ∧
        ∀ c ∈ octet_text b, c ∈ "0123456789abcdef".data) ∧
      signed_value (signed_decimal rssi) = rssi ∧
      (∀ (p : List Byte) (m : Machine), 39 ≤ p.length → p[0]? = some 0xd0 →
        p[25]? = some 0x18 → p[26]? = some 0xfe → p[27]? = some 0x34 →
        p[37]? = some 0x04 → (p.drop 10).take 6 = [a0, a1, a2, a3, a4, a5] →
        emitted m (promiscuous_rx_cb ⟨rssi, p⟩ WIFI_PKT_MGMT m) =
          some (report_text [a0, a1, a2, a3, a4, a5] rssi ++ ['\n'])) := by
  have haddr : address_text [a0, a1, a2, a3, a4, a5] =
      octet_text a0 ++ ':' :: (octet_text a1 ++ ':' :: (octet_text a2 ++ ':' ::
        (octet_text a3 ++ ':' :: (octet_text a4 ++ ':' :: octet_text a5)))) := by
    simp [address_text, List.intercalate, List.intersperse]
  have hrep : report [a0, a1, a2, a3, a4, a5] rssi =
      report_text [a0, a1, a2, a3, a4, a5] rssi ++ ['\n'] := by
    rw [report_eq, report_text, haddr]
    simp
  refine ⟨hrep, haddr, ?_, ?_, signed_value_signed_decimal rssi, ?_⟩
  · rw [haddr]
    simp [octet_text]
  · intro b
    exact ⟨rfl, octet_text_hex b⟩
  · intro p m hlen h0 h25 h26 h27 h37 ha
    have hrun := rx_cb_spec p rssi WIFI_PKT_MGMT m hlen
    simp only [final_state, h0, h25, h26, h27, h37, and_self, if_true] at hrun
    rw [hrun, emitted_append, ha, hrep]

/-- Witness for C5: the address 7c:df:a1:01:f3:14 with rssi 12, and the
39-octet payload `other_payload` carrying it. -/
theorem report_format_witness :
    (39 ≤ other_payload.length ∧ other_payload[0]? = some 0xd0 ∧
      other_payload[25]? = some 0x18 ∧ other_payload[26]? = some 0xfe ∧
      other_payload[27]? = some 0x34 ∧ other_payload[37]? = some 0x04 ∧
      (other_payload.drop 10).take 6 = [0x7c, 0xdf, 0xa1, 0x01, 0xf3, 0x14]) ∧
    emitted ⟨[], []⟩ (promiscuous_rx_cb ⟨12, other_payload⟩ WIFI_PKT_MGMT ⟨[], []⟩) =
      some (report_text [0x7c, 0xdf, 0xa1, 0x01, 0xf3, 0x14] 12 ++ ['\n']) :=
  ⟨by decide,
    (report_format 0x7c 0xdf 0xa1 0x01 0xf3 0x14 12).2.2.2.2.2 other_payload ⟨[], []⟩
      (by decide) (by decide) (by decide) (by decide) (by decide) (by decide) (by decide)⟩

/-! ## Claims about the broadcast task -/

theorem task_iteration_sent (P : Nat) (ret : esp_err_t) (s : Task) :
    (task_iteration P ret s).sent = s.sent ++ [probe_call] := by
  unfold task_iteration
  split_ifs <;> rfl

theorem foldl_sent (P : Nat) (rets : List esp_err_t) (s : Task) :
    (rets.foldl (fun s ret => task_iteration P ret s) s).sent =
      s.sent ++ List.replicate rets.length probe_call := by
  induction rets generalizing s with
  | nil => simp
  | cons r rs ih =>
    rw [List.foldl_cons, ih, task_iteration_sent, List.length_cons, List.replicate_succ]
    simp

/-- C7 (scheduler send count): for every sequence of send results, after as
many ticks as there are results exactly that many send attempts have been
made; and whatever the results so far and the result of one more tick, that
tick adds exactly one attempt. -/
theorem scheduler_send_count (portTICK_PERIOD_MS tick_count : Nat) (rets : List esp_err_t) :
    (example_espnow_task portTICK_PERIOD_MS tick_count rets).sent.length = rets.length ∧
      ∀ ret : esp_err_t,
        (example_espnow_task portTICK_PERIOD_MS tick_count (rets ++ [ret])).sent.length =
          (example_espnow_task portTICK_PERIOD_MS tick_count rets).sent.length + 1 := by
  constructor
  · simp [example_espnow_task, foldl_sent, task_start]
  · intro ret
    simp only [example_espnow_task, List.foldl_append, List.foldl_cons, List.foldl_nil,
      task_iteration_sent, List.length_append, List.length_singleton]

/-- C8 (probe shape), against the claim as stated: after one tick it is not the
case that every send call has the broadcast destination and an empty payload. -/
theorem probe_payload_not_empty :
    ¬ ∀ c ∈ (example_espnow_task 10 0 [ESP_OK]).sent,
      c.peer_addr = [0xFF, 0xFF, 0xFF, 0xFF, 0xFF, 0xFF] ∧ c.data = [] ∧ c.len = 0 := by
  decide

/-- C8 (probe shape) as amended: on every tick the send call is the same
constant one, with destination ff:ff:ff:ff:ff:ff and, as payload, the six
octets 01:23:45:67:89:ab of the device identifier (length 6). -/
theorem probe_shape (portTICK_PERIOD_MS tick_count : Nat) (rets : List esp_err_t) :
    (example_espnow_task portTICK_PERIOD_MS tick_count rets).sent =
      List.replicate rets.length
        ⟨[0xFF, 0xFF, 0xFF, 0xFF, 0xFF, 0xFF], [0x01, 0x23, 0x45, 0x67, 0x89, 0xAB], 6⟩ := by
  simp [example_espnow_task, foldl_sent, task_start, probe_call]

end RssiPinger
